import Mathlib

/-!
A shallow embedding of the dynamic solve engine of the openssa repository,
file src/openssa/l2/agent/agent.py: the Task data model, the dispatch in
Agent.solve, the recursive decomposition in Agent.solve_dynamically, and the
knowledge mutator Agent.add_knowledge, together with theorems settling the
frozen claims about them.

The collaborating classes (TaskStatus, Task, the abstract Reasoner, Planner
and Plan) are declared and called in agent.py but their own files are not
among the given sources; they are modelled from the spec (sections 3, 4.2,
4.3 and 4.6), with the behaviour of each capability kept as an arbitrary
function field so that theorems quantify over every behaviour.
-/

namespace OpenSSA

/-- Task lifecycle states. Modelled from the spec: the TaskStatus enumeration
(openssa/l2/task/status.py is not among the given sources); section 3 of the
spec lists CREATED, RESOLVED, NEEDING_DECOMPOSITION and DONE, with CREATED
initial. -/
inductive TaskStatus where
  | CREATED
  | RESOLVED
  | NEEDING_DECOMPOSITION
  | DONE
  deriving DecidableEq

/-- One unit of work. Modelled from the spec: Task (openssa/l2/task/task.py is
not among the given sources) holds an ask, a resource set, a status starting
at CREATED, and an optional result, absent until set. -/
structure Task where
  ask : String
  resources : Finset String
  status : TaskStatus := .CREATED
  result : Option String := none
  deriving DecidableEq

/-- The effect of one call of Reasoner.reason on its Task. Modelled from the
spec (section 4.2): reason sets the status and the result of the task and
returns a text. `status` and `result` are what gets written into the task
(agent.py reads task.status and task.result after the call on line 148);
`ret` is the returned text (agent.py uses the return value on line 74). -/
structure ReasonOut where
  status : TaskStatus
  result : String
  ret : String
  deriving DecidableEq

/-- A Reasoner behaviour: from the ask and the resources of the fresh task and
the knowledge of the agent to the effect of the reason call. -/
abbrev ReasonerFn := String → Finset String → Finset String → ReasonOut

/-- A resolved (ask, answer) pair of one sibling sub-task. -/
abbrev AskAnsPair := String × String

/-- A one-level decomposition. Modelled from the spec (sections 3 and 4.6): a
Plan pairs a task with an ordered sequence of sub-plans. Plan.execute is an
opaque capability synthesizing a text; in Python it reads the reasoner, the
current tasks of its sub-plans (which agent.py mutates before calling it), the
sibling context of an enclosing level (the keyword argument other_results,
None when not passed), and the knowledge; the embedding passes all four
explicitly since it is immutable. -/
inductive Plan where
  | mk (task : Task) (sub_plans : List Plan)
      (execute : ReasonerFn → List Task → Option (List AskAnsPair) → Finset String → String)

/-- The task of a plan. -/
def Plan.task : Plan → Task
  | .mk t _ _ => t

/-- The ordered sub-plans of a plan. -/
def Plan.sub_plans : Plan → List Plan
  | .mk _ sps _ => sps

/-- The execute capability of a plan. -/
def Plan.execute : Plan → ReasonerFn → List Task → Option (List AskAnsPair) → Finset String → String
  | .mk _ _ ex => ex

/-- A Planner. Modelled from the spec (section 4.3): it carries the remaining
depth budget max_depth, produces a one-level decomposition via
plan(problem, resources, knowledge) (the knowledge argument is optional in
Python: agent.py passes it on line 81 and omits it on line 157, hence the
Option), and can re-bind the resources of an externally supplied plan via
update_plan_resources. Planner instances are modelled as boolean-truthy; the
truthiness nuance of the dispatch guards is studied separately in
solveDispatch below. -/
structure Planner where
  max_depth : Nat
  plan : String → Finset String → Option (Finset String) → Plan
  update_plan_resources : Plan → String → Finset String → Finset String → Plan

/-- Modelled from the spec (section 4.3): one_fewer_level_deep returns a
Planner whose max_depth is the max_depth of the caller minus one, used for all
recursive descent. -/
def Planner.one_fewer_level_deep (p : Planner) : Planner :=
  { p with max_depth := p.max_depth - 1 }

/-- Modelled from the spec (section 4.3): one_level_deep returns a Planner
configured to decompose only once more; only its plan capability is used by
agent.py (line 156). -/
def Planner.one_level_deep (p : Planner) : Planner :=
  { p with max_depth := 1 }

/-- The Agent of agent.py lines 26-42: an optional Planner, a Reasoner, a set
of informational resources and a set of knowledge strings. The Python
defaults (AutoHTPlanner, OodaReasoner) are concrete collaborators outside the
given sources, so the fields carry no defaults here. -/
structure Agent where
  planner : Option Planner
  reasoner : ReasonerFn
  resources : Finset String
  knowledge : Finset String

/-- The failure outcomes agent.py can produce on the paths the claims are
about: the AttributeError of reading max_depth on a missing planner (line
152), the NotImplementedError of line 135, the TypeError raised by the
isinstance call of line 54, and an out-of-fuel sentinel of the embedding of
the recursion, proved unreachable below. -/
inductive Err where
  | attributeError
  | outOfFuel
  | notImplemented
  | typeError
  deriving DecidableEq

instance {ε α : Type} [DecidableEq ε] [DecidableEq α] : DecidableEq (Except ε α) :=
  fun x y =>
    match x, y with
    | .ok a, .ok b =>
        if h : a = b then .isTrue (by rw [h]) else .isFalse (by intro hc; cases hc; exact h rfl)
    | .error a, .error b =>
        if h : a = b then .isTrue (by rw [h]) else .isFalse (by intro hc; cases hc; exact h rfl)
    | .ok _, .error _ => .isFalse (by intro hc; cases hc)
    | .error _, .ok _ => .isFalse (by intro hc; cases hc)

/-- The planner resolution `(planner := planner or self.planner)` of agent.py
line 152: the argument when given, else the planner of the agent. Planner
objects are modelled as truthy, so `or` is a choice on None-ness. -/
def effPlanner (a : Agent) (pl : Option Planner) : Option Planner :=
  match pl with
  | some p => some p
  | none => a.planner

/-- The depth budget of the effective planner of a call (0 when the agent has
no planner at all); the fuel of the embedding is effDepth + 1. -/
def effDepth (a : Agent) (pl : Option Planner) : Nat :=
  match effPlanner a pl with
  | some p => p.max_depth
  | none => 0

/-- The sub-plan loop of agent.py lines 155-163. For each sub-plan in order:
call `recur` (the recursive solve_dynamically call) on the ask of its task
with the sibling pairs accumulated so far as context, set the result of the
sub-task to the returned value and its status to DONE, append its (ask,
result) pair, and continue with the next sibling. Returns the updated
sub-tasks (read by Plan.execute afterwards) and the final accumulated pair
list (the local variable sub_results). An error of any recursive branch
aborts the loop, as an uncaught Python exception would. -/
def solveSubPlans (recur : String → List AskAnsPair → Except Err Task) :
    List Plan → List AskAnsPair → Except Err (List Task × List AskAnsPair)
  | [], acc => .ok ([], acc)
  | sp :: rest, acc =>
    match recur sp.task.ask acc with
    | .error e => .error e
    | .ok t =>
      let sub_task : Task := { sp.task with result := t.result, status := .DONE }
      match solveSubPlans recur rest (acc ++ [(sub_task.ask, t.result.getD "")]) with
      | .error e => .error e
      | .ok (ts, finalAcc) => .ok (sub_task :: ts, finalAcc)

/-- The body of Agent.solve_dynamically (agent.py lines 142-168), with a fuel
parameter making the recursion structural: each recursive descent consumes one
unit of fuel, and `solveDynWorker_no_fuel_exhaustion` below proves that fuel
effDepth + 1 is never exhausted, so the wrapper Agent.solve_dynamically is a
faithful totalization of the source recursion. Line by line: reason on a
fresh Task(ask=problem, resources=self.resources) (line 148); if the status
set is NEEDING_DECOMPOSITION, resolve `planner or self.planner` (an
AttributeError when both are None) and, when its max_depth is nonzero, derive
the sub-planner one level less deep, produce the one-level plan, run the
sub-plan loop, then set the result of the task to what execute returns with
other_results passed through unchanged and set its status to DONE (lines
152-166); in every other case return the task as the reasoner left it. -/
def solveDynWorker (a : Agent) :
    Nat → String → Option Planner → Option (List AskAnsPair) → Except Err Task
  | 0, _, _, _ => .error .outOfFuel
  | fuel + 1, problem, pl, other =>
    let ro := a.reasoner problem a.resources a.knowledge
    let task : Task := { ask := problem, resources := a.resources,
                         status := ro.status, result := some ro.result }
    if task.status = .NEEDING_DECOMPOSITION then
      match effPlanner a pl with
      | none => .error .attributeError
      | some p =>
        if p.max_depth ≠ 0 then
          let sub_planner := p.one_fewer_level_deep
          let plan1 := (p.one_level_deep).plan problem a.resources none
          match solveSubPlans
              (fun ask ctx => solveDynWorker a fuel ask (some sub_planner) (some ctx))
              plan1.sub_plans [] with
          | .error e => .error e
          | .ok (subTasks, _subResults) =>
            .ok { task with
                  result := some (plan1.execute a.reasoner subTasks other a.knowledge),
                  status := .DONE }
        else .ok task
    else .ok task

/-- Agent.solve_dynamically (agent.py lines 142-168): the worker at fuel
effDepth + 1, returning the final top task (whose result field is what the
Python function returns). -/
def Agent.solve_dynamically (a : Agent) (problem : String)
    (pl : Option Planner) (other : Option (List AskAnsPair)) : Except Err Task :=
  solveDynWorker a (effDepth a pl + 1) problem pl other

/-- Agent.solve (agent.py lines 59-140), executed on the concrete model. The
six arms embed the six cases of the Python match in order; Plan and Planner
instances of the model are truthy, so each guard reduces to None-ness and the
catch-all of line 137 is unreachable here (its truthiness behaviour is the
separate definition solveDispatch below). Static executions pass the current
tasks of the sub-plans of the executed plan to execute, no other_results, and
the knowledge (lines 91, 112, 129); the dynamic arm is
solve_dynamically(problem) with all defaults (line 99) and returns the result
field of its task. -/
def Agent.solve (a : Agent) (problem : String) (plan : Option Plan) (dynamic : Bool) :
    Except Err String :=
  match plan, a.planner, dynamic with
  | none, none, _ =>
    .ok (a.reasoner problem a.resources a.knowledge).ret
  | none, some p, false =>
    let pl := p.plan problem a.resources (some a.knowledge)
    .ok (pl.execute a.reasoner (pl.sub_plans.map Plan.task) none a.knowledge)
  | none, some _, true =>
    (a.solve_dynamically problem none none).map fun t => t.result.getD ""
  | some pl, none, _ =>
    .ok (pl.execute a.reasoner (pl.sub_plans.map Plan.task) none a.knowledge)
  | some pl0, some p, false =>
    let pl := p.update_plan_resources pl0 problem a.resources a.knowledge
    .ok (pl.execute a.reasoner (pl.sub_plans.map Plan.task) none a.knowledge)
  | some _, some _, true => .error .notImplemented

/-- The strategy selected by the match of agent.py lines 69-138. -/
inductive SolveOutcome where
  | directReason
  | autoStaticPlan
  | autoDynamicPlan
  | expertStaticPlan
  | expertStaticPlanUpdated
  | notImplementedError
  | invalidConfigError
  deriving DecidableEq

/-- Python truthiness of an optional object: none models None, some b models
an object whose bool() is b (a plain dataclass instance gives some true; a
subclass overriding its boolean conversion may give some false). -/
def truthy : Option Bool → Bool
  | some true => true
  | _ => false

/-- The dispatch of agent.py lines 69-138 at the level the guards observe:
each of plan and self.planner enters the match only through None-ness
(patterns) and truthiness (the guards of lines 77, 94, 102, 115 and 132), so
they are abstracted to Option Bool. The arms are tried in source order, as a
Python match does. -/
def solveDispatch (plan planner : Option Bool) (dynamic : Bool) : SolveOutcome :=
  if plan = none && planner = none then .directReason
  else if plan = none && dynamic = false && truthy planner then .autoStaticPlan
  else if plan = none && dynamic = true && truthy planner then .autoDynamicPlan
  else if planner = none && truthy plan then .expertStaticPlan
  else if dynamic = false && truthy plan && truthy planner then .expertStaticPlanUpdated
  else if dynamic = true && truthy plan && truthy planner then .notImplementedError
  else .invalidConfigError

/-- The dispatch table of section 4.4 of the spec, taken at its own words:
six rows over (plan absent or present, planner absent or present, dynamic),
every uncovered combination an Invalid-Configuration failure. Present is read
as boolean-truthy, the reading under which the code realizes the table; the
claim theorems below compare this definition with solveDispatch. -/
def specDispatchTable (plan planner : Option Bool) (dynamic : Bool) : SolveOutcome :=
  if plan = none ∧ planner = none then .directReason
  else if plan = none ∧ truthy planner ∧ dynamic = false then .autoStaticPlan
  else if plan = none ∧ truthy planner ∧ dynamic = true then .autoDynamicPlan
  else if truthy plan ∧ planner = none then .expertStaticPlan
  else if truthy plan ∧ truthy planner ∧ dynamic = false then .expertStaticPlanUpdated
  else if truthy plan ∧ truthy planner ∧ dynamic = true then .notImplementedError
  else .invalidConfigError

/-- A Python value passed to add_knowledge: a string, a set of strings, or a
value of any other type. -/
inductive PyVal where
  | pstr (s : String)
  | pset (s : Finset String)
  | pother
  deriving DecidableEq

/-- Agent.add_knowledge (agent.py lines 50-57), embedded with its actual
runtime behaviour. For a string, knowledge.add(new_knowledge). For every
other value the line `elif isinstance(new_knowledge, set[str])` raises
TypeError, because isinstance with a parameterized generic such as set[str]
is itself a TypeError in Python; the merge branch of line 55 and the
ValueError of line 57 are therefore unreachable. -/
def Agent.add_knowledge (knowledge : Finset String) : PyVal → Except Err (Finset String)
  | .pstr s => .ok (insert s knowledge)
  | _ => .error .typeError

/-- The sub-plan loop never produces the out-of-fuel sentinel when none of
its recursive calls does: it only passes errors of the calls through. -/
theorem solveSubPlans_ne_outOfFuel (recur : String → List AskAnsPair → Except Err Task)
    (h : ∀ ask ctx, recur ask ctx ≠ .error .outOfFuel) :
    ∀ (sps : List Plan) (acc : List AskAnsPair),
      solveSubPlans recur sps acc ≠ .error .outOfFuel := by
  intro sps
  induction sps with
  | nil => intro acc; simp [solveSubPlans]
  | cons sp rest ih =>
    intro acc
    simp only [solveSubPlans]
    cases hr : recur sp.task.ask acc with
    | error e => simpa [hr] using h sp.task.ask acc
    | ok t =>
      cases hs : solveSubPlans recur rest (acc ++ [(sp.task.ask, t.result.getD "")]) with
      | error e =>
        simpa [hr, hs] using ih (acc ++ [(sp.task.ask, t.result.getD "")])
      | ok pr =>
        cases pr with
        | mk ts finalAcc => simp [hr, hs]

/-- The depth budget of a call whose effective planner is p is the max_depth
of p. -/
theorem effDepth_eq_of_effPlanner (a : Agent) (pl : Option Planner) (p : Planner)
    (hp : effPlanner a pl = some p) : effDepth a pl = p.max_depth := by
  simp [effDepth, hp]

/-- Fuel sufficiency: the worker never exhausts fuel exceeding the depth
budget of its effective planner. Recursion descends with a planner exactly
one level less deep, so the budget falls by one while fuel falls by one. -/
theorem solveDynWorker_no_fuel_exhaustion :
    ∀ (f : Nat) (a : Agent) (problem : String) (pl : Option Planner)
      (other : Option (List AskAnsPair)),
      effDepth a pl < f →
      solveDynWorker a f problem pl other ≠ .error .outOfFuel := by
  intro f
  induction f with
  | zero => intro a problem pl other h; exact absurd h (Nat.not_lt_zero _)
  | succ f ih =>
    intro a problem pl other h
    simp only [solveDynWorker]
    split
    · cases hp : effPlanner a pl with
      | none => simp
      | some p =>
        have hdep : effDepth a pl = p.max_depth := effDepth_eq_of_effPlanner a pl p hp
        rw [hdep] at h
        dsimp only
        split
        · have hrec : ∀ ask ctx,
              solveDynWorker a f ask (some p.one_fewer_level_deep) (some ctx) ≠
                .error .outOfFuel := by
            intro ask ctx
            apply ih
            have hone : effDepth a (some p.one_fewer_level_deep) = p.max_depth - 1 := rfl
            rw [hone]
            omega
          cases hs : solveSubPlans
              (fun ask ctx => solveDynWorker a f ask (some p.one_fewer_level_deep) (some ctx))
              (((p.one_level_deep).plan problem a.resources none)).sub_plans [] with
          | error e =>
            have hloop := solveSubPlans_ne_outOfFuel _ hrec
              (((p.one_level_deep).plan problem a.resources none)).sub_plans []
            simpa [hs] using hloop
          | ok pr =>
            cases pr with
            | mk ts finalAcc => simp [hs]
        · simp
    · simp

/-- One decomposition step of solve_dynamically, phrased back in terms of
solve_dynamically itself: when the reasoner signals NEEDING_DECOMPOSITION and
the effective planner has nonzero depth, the call runs the sub-plan loop with
the recursive calls carrying the planner one level less deep, then finishes
the task through Plan.execute with other_results passed through unchanged and
status DONE. -/
theorem solve_dynamically_decomp (a : Agent) (problem : String) (pl : Option Planner)
    (other : Option (List AskAnsPair)) (p : Planner)
    (hp : effPlanner a pl = some p) (hd : p.max_depth ≠ 0)
    (hst : (a.reasoner problem a.resources a.knowledge).status = .NEEDING_DECOMPOSITION) :
    a.solve_dynamically problem pl other =
      match solveSubPlans
          (fun ask ctx => a.solve_dynamically ask (some p.one_fewer_level_deep) (some ctx))
          (((p.one_level_deep).plan problem a.resources none)).sub_plans [] with
      | .error e => .error e
      | .ok (subTasks, _) =>
        .ok { ask := problem, resources := a.resources, status := .DONE,
              result := some (((p.one_level_deep).plan problem a.resources none).execute
                                a.reasoner subTasks other a.knowledge) } := by
  have hchild : (fun ask ctx => a.solve_dynamically ask (some p.one_fewer_level_deep) (some ctx))
      = (fun ask ctx =>
          solveDynWorker a p.max_depth ask (some p.one_fewer_level_deep) (some ctx)) := by
    funext ask ctx
    simp only [Agent.solve_dynamically, effDepth, effPlanner, Planner.one_fewer_level_deep]
    congr 1
    omega
  rw [Agent.solve_dynamically, effDepth_eq_of_effPlanner a pl p hp]
  simp only [solveDynWorker]
  rw [hchild]
  simp [hp, hd, hst]

/-- The task exactly as Reasoner.reason leaves a fresh task for the given
problem: the direct attempt of agent.py line 148, before any decomposition. -/
def directTask (a : Agent) (problem : String) : Task :=
  { ask := problem, resources := a.resources,
    status := (a.reasoner problem a.resources a.knowledge).status,
    result := some (a.reasoner problem a.resources a.knowledge).result }

/-- A probe reasoner: signals NEEDING_DECOMPOSITION on the ask X, resolves
every other ask directly. -/
def rProbe : ReasonerFn := fun ask _ _ =>
  if ask = "X" then ⟨.NEEDING_DECOMPOSITION, "draft", "draft"⟩
  else ⟨.RESOLVED, "sub-answer", "sub-answer"⟩

/-- A probe plan with one sub-plan whose execute capability reveals which
other_results argument it was given. -/
def planProbe : Plan :=
  .mk { ask := "X", resources := ∅ }
    [ .mk { ask := "X1", resources := ∅ } [] (fun _ _ _ _ => "unused") ]
    (fun _ _ other _ =>
      match other with
      | none => "OTHER=NONE"
      | some [] => "OTHER=SOME-EMPTY"
      | some (_ :: _) => "OTHER=SOME-NONEMPTY")

/-- A planner of depth 1 that always produces planProbe. -/
def plannerProbe : Planner :=
  { max_depth := 1, plan := fun _ _ _ => planProbe,
    update_plan_resources := fun pl _ _ _ => pl }

/-- An agent that decomposes X once through plannerProbe. -/
def agentProbe : Agent :=
  { planner := some plannerProbe, reasoner := rProbe, resources := ∅, knowledge := ∅ }

/-- A reasoner that always signals NEEDING_DECOMPOSITION. -/
def rNeedy : ReasonerFn := fun _ _ _ => ⟨.NEEDING_DECOMPOSITION, "draft", "draft"⟩

/-- A planner that has run out of depth. -/
def plannerZero : Planner :=
  { max_depth := 0, plan := fun _ _ _ => planProbe,
    update_plan_resources := fun pl _ _ _ => pl }

/-- An agent whose planner has run out of depth while its reasoner keeps
asking for decomposition. -/
def agentZero : Agent :=
  { planner := some plannerZero, reasoner := rNeedy, resources := ∅, knowledge := ∅ }

/-- An agent with no planner at all. -/
def agentNoPlanner : Agent :=
  { planner := none, reasoner := rProbe, resources := ∅, knowledge := ∅ }

/-- Reasoner for the three-sibling scenario: Q needs decomposition, every
other ask resolves to the text ans- followed by the ask. -/
def rTri : ReasonerFn := fun ask _ _ =>
  if ask = "Q" then ⟨.NEEDING_DECOMPOSITION, "draft", "draft"⟩
  else ⟨.RESOLVED, "ans-" ++ ask, "ans-" ++ ask⟩

/-- A leaf plan (no sub-plans) with the given ask. -/
def leafPlan (s : String) : Plan :=
  .mk { ask := s, resources := ∅ } [] (fun _ _ _ _ => "unused-leaf")

/-- A one-level plan for Q with the three ordered sub-plans A, B, C. -/
def planTri : Plan :=
  .mk { ask := "Q", resources := ∅ } [leafPlan "A", leafPlan "B", leafPlan "C"]
    (fun _ _ _ _ => "synth")

/-- A planner of depth 1 that always produces planTri. -/
def plannerTri : Planner :=
  { max_depth := 1, plan := fun _ _ _ => planTri,
    update_plan_resources := fun pl _ _ _ => pl }

/-- An agent that decomposes Q into the siblings A, B, C. -/
def agentTri : Agent :=
  { planner := some plannerTri, reasoner := rTri, resources := ∅, knowledge := ∅ }

/-- C1: every recursive descent of solve_dynamically uses the planner
produced by one_fewer_level_deep, whose max_depth is exactly one less than
that of its caller (first conjunct, by the contract of section 4.3 of the
spec), and the recursion always terminates within the depth budget of the
effective planner: the embedding runs on fuel effDepth + 1, one unit per
level of decomposition, and never exhausts it, even for a Reasoner that
signals NEEDING_DECOMPOSITION on every task (second conjunct, universally
quantified over every Reasoner and Planner behaviour). -/
theorem C1_strict_depth_decrease_and_termination :
    (∀ q : Planner, (q.one_fewer_level_deep).max_depth = q.max_depth - 1) ∧
    (∀ (a : Agent) (problem : String) (pl : Option Planner)
       (other : Option (List AskAnsPair)),
      a.solve_dynamically problem pl other ≠ .error .outOfFuel) := by
  constructor
  · intro q; rfl
  · intro a problem pl other
    exact solveDynWorker_no_fuel_exhaustion (effDepth a pl + 1) a problem pl other
      (Nat.lt_succ_self _)

/-- C2, counterexample: not every normally returning top-level
solve_dynamically call leaves its task RESOLVED or DONE. With a planner of
max_depth 0 and a reasoner signalling NEEDING_DECOMPOSITION, the guard of
agent.py line 152 is false, no decomposition runs, and the call returns with
the task still in status NEEDING_DECOMPOSITION, which is neither RESOLVED nor
DONE (second conjunct). -/
theorem C2_counterexample_depth_zero :
    agentZero.solve_dynamically "q" none none =
      .ok { ask := "q", resources := ∅, status := .NEEDING_DECOMPOSITION,
            result := some "draft" } ∧
    decide (TaskStatus.NEEDING_DECOMPOSITION = TaskStatus.RESOLVED ∨
            TaskStatus.NEEDING_DECOMPOSITION = TaskStatus.DONE) = false := by
  constructor
  · decide
  · decide

/-- C2, amended: for a Reasoner that, per its contract, sets status RESOLVED
or NEEDING_DECOMPOSITION, a normally returning solve_dynamically call leaves
its task RESOLVED or DONE — and never CREATED — except that when the
effective planner has depth budget 0 and the Reasoner signalled
NEEDING_DECOMPOSITION, the task is returned still in status
NEEDING_DECOMPOSITION. -/
theorem C2_terminal_status_amended (a : Agent) (problem : String) (pl : Option Planner)
    (other : Option (List AskAnsPair)) (t : Task)
    (hcontract : ∀ ask : String,
      (a.reasoner ask a.resources a.knowledge).status = .RESOLVED ∨
      (a.reasoner ask a.resources a.knowledge).status = .NEEDING_DECOMPOSITION)
    (hok : a.solve_dynamically problem pl other = .ok t) :
    t.status = .RESOLVED ∨ t.status = .DONE ∨
      (t.status = .NEEDING_DECOMPOSITION ∧ effDepth a pl = 0) := by
  rw [Agent.solve_dynamically] at hok
  simp only [solveDynWorker] at hok
  by_cases hst : (a.reasoner problem a.resources a.knowledge).status = .NEEDING_DECOMPOSITION
  · rw [if_pos hst] at hok
    rcases hp : effPlanner a pl with _ | p
    · rw [hp] at hok
      simp at hok
    · rw [hp] at hok
      dsimp only at hok
      by_cases hd : p.max_depth = 0
      · rw [if_neg (not_not_intro hd)] at hok
        simp only [Except.ok.injEq] at hok
        subst hok
        exact Or.inr (Or.inr ⟨hst, by rw [effDepth_eq_of_effPlanner a pl p hp]; exact hd⟩)
      · rw [if_pos hd] at hok
        rcases hs : solveSubPlans
            (fun ask ctx =>
              solveDynWorker a (effDepth a pl) ask (some p.one_fewer_level_deep) (some ctx))
            (((p.one_level_deep).plan problem a.resources none)).sub_plans [] with e | pr
        · rw [hs] at hok
          simp at hok
        · rcases pr with ⟨ts, finalAcc⟩
          rw [hs] at hok
          simp only [Except.ok.injEq] at hok
          subst hok
          exact Or.inr (Or.inl rfl)
  · rw [if_neg hst] at hok
    simp only [Except.ok.injEq] at hok
    subst hok
    rcases hcontract problem with hres | hneed
    · exact Or.inl hres
    · exact absurd hneed hst

/-- C2, witness: the amended statement instantiated at the depth-exhausted
agent, landing in the NEEDING_DECOMPOSITION-with-zero-budget case. -/
theorem C2_terminal_status_witness :
    ({ ask := "q", resources := ∅, status := .NEEDING_DECOMPOSITION,
       result := some "draft" } : Task).status = .RESOLVED ∨
    ({ ask := "q", resources := ∅, status := .NEEDING_DECOMPOSITION,
       result := some "draft" } : Task).status = .DONE ∨
    (({ ask := "q", resources := ∅, status := .NEEDING_DECOMPOSITION,
        result := some "draft" } : Task).status = .NEEDING_DECOMPOSITION ∧
      effDepth agentZero none = 0) :=
  C2_terminal_status_amended agentZero "q" none none
    { ask := "q", resources := ∅, status := .NEEDING_DECOMPOSITION, result := some "draft" }
    (fun _ => Or.inr rfl) (by decide)

/-- C3: the sub-plan loop of solve_dynamically (agent.py lines 155-163, the
definition solveSubPlans, here run with the recursive solve_dynamically call
as its body) threads sibling context forward only: for ordered sub-plans
[A, B, C], the recursive call resolving B receives exactly the (ask, answer)
pair of A, the call resolving C receives exactly the pairs of A and B in that
order, and each sub-task is returned with its result set to the value of its
recursive call and its status DONE, its pair appended before the next sibling
is started. -/
theorem C3_sibling_context_ordering (a : Agent) (sub_planner : Planner) (A B C : Plan)
    (tA tB tC : Task)
    (hA : a.solve_dynamically A.task.ask (some sub_planner) (some []) = .ok tA)
    (hB : a.solve_dynamically B.task.ask (some sub_planner)
            (some [(A.task.ask, tA.result.getD "")]) = .ok tB)
    (hC : a.solve_dynamically C.task.ask (some sub_planner)
            (some [(A.task.ask, tA.result.getD ""), (B.task.ask, tB.result.getD "")]) =
          .ok tC) :
    solveSubPlans (fun ask ctx => a.solve_dynamically ask (some sub_planner) (some ctx))
        [A, B, C] [] =
      .ok ([{ A.task with result := tA.result, status := .DONE },
            { B.task with result := tB.result, status := .DONE },
            { C.task with result := tC.result, status := .DONE }],
           [(A.task.ask, tA.result.getD ""), (B.task.ask, tB.result.getD ""),
            (C.task.ask, tC.result.getD "")]) := by
  simp [solveSubPlans, hA, hB, hC]

/-- C3, witness: the three-sibling agent resolves A, B and C in order; the
contexts of the recursive calls are discharged by computation. -/
theorem C3_sibling_context_witness :
    solveSubPlans
        (fun ask ctx =>
          agentTri.solve_dynamically ask (some plannerTri.one_fewer_level_deep) (some ctx))
        [leafPlan "A", leafPlan "B", leafPlan "C"] [] =
      .ok ([{ ask := "A", resources := ∅, status := .DONE, result := some "ans-A" },
            { ask := "B", resources := ∅, status := .DONE, result := some "ans-B" },
            { ask := "C", resources := ∅, status := .DONE, result := some "ans-C" }],
           [("A", "ans-A"), ("B", "ans-B"), ("C", "ans-C")]) :=
  C3_sibling_context_ordering agentTri plannerTri.one_fewer_level_deep
    (leafPlan "A") (leafPlan "B") (leafPlan "C")
    { ask := "A", resources := ∅, status := .RESOLVED, result := some "ans-A" }
    { ask := "B", resources := ∅, status := .RESOLVED, result := some "ans-B" }
    { ask := "C", resources := ∅, status := .RESOLVED, result := some "ans-C" }
    (by decide) (by decide) (by decide)

/-- C5: when the effective planner has max_depth 0, solve_dynamically never
decomposes, whatever status the Reasoner sets (NEEDING_DECOMPOSITION
included): the call returns the task exactly as the Reasoner left it, its
result the direct Reasoner output. -/
theorem C5_depth_zero_no_decomposition (a : Agent) (problem : String)
    (pl : Option Planner) (other : Option (List AskAnsPair)) (p : Planner)
    (hp : effPlanner a pl = some p) (hd : p.max_depth = 0) :
    a.solve_dynamically problem pl other = .ok (directTask a problem) := by
  rw [Agent.solve_dynamically, effDepth_eq_of_effPlanner a pl p hp, hd]
  simp only [solveDynWorker]
  by_cases hst : (a.reasoner problem a.resources a.knowledge).status = .NEEDING_DECOMPOSITION
  · rw [if_pos hst, hp]
    dsimp only
    rw [if_neg (not_not_intro hd)]
    rfl
  · rw [if_neg hst]
    rfl

/-- C5, witness: the depth-exhausted agent with an always-decompose reasoner
still returns the direct reasoner result. -/
theorem C5_depth_zero_witness :
    agentZero.solve_dynamically "q" none none = .ok (directTask agentZero "q") :=
  C5_depth_zero_no_decomposition agentZero "q" none none plannerZero rfl rfl

/-- C6: with no explicit plan and no agent planner, solve returns exactly the
text of Reasoner.reason on a fresh Task(ask=problem, resources=the agent
resources) with the agent knowledge (agent.py lines 72-74), for either value
of dynamic. -/
theorem C6_no_plan_no_planner_direct (a : Agent) (problem : String) (dynamic : Bool)
    (h : a.planner = none) :
    a.solve problem none dynamic = .ok (a.reasoner problem a.resources a.knowledge).ret := by
  simp [Agent.solve, h]

/-- C6, witness: the plannerless agent answers through its reasoner alone. -/
theorem C6_no_plan_no_planner_witness :
    agentNoPlanner.solve "easy" none true = .ok "sub-answer" :=
  C6_no_plan_no_planner_direct agentNoPlanner "easy" true rfl

/-- C7, counterexample: at a top-level solve_dynamically call that
decomposes, Plan.execute is invoked with other_results None — the defaulted
argument of agent.py line 142 passed through on line 165 — not with the empty
sequence the claim states. The probe execute answers OTHER=NONE for None and
OTHER=SOME-EMPTY for the empty sequence; the run returns OTHER=NONE (first
conjunct), while the call the claim predicts would have returned
OTHER=SOME-EMPTY (second conjunct). -/
theorem C7_counterexample_top_level_none :
    agentProbe.solve_dynamically "X" none none =
      .ok { ask := "X", resources := ∅, status := .DONE, result := some "OTHER=NONE" } ∧
    planProbe.execute agentProbe.reasoner
        [{ ask := "X1", resources := ∅, status := .DONE, result := some "sub-answer" }]
        (some []) ∅ = "OTHER=SOME-EMPTY" := by
  constructor
  · decide
  · decide

/-- C7, amended: when solve_dynamically decomposes, after all sub-plans are
resolved it calls the execute capability of the one-level plan with
other_results equal to the sibling context supplied by the enclosing level —
which at a top-level call is None (the defaulted argument), not the empty
sequence — sets the result of the task to the return value of execute and its
status to DONE, and returns that task. -/
theorem C7_execute_context_amended (a : Agent) (problem : String) (pl : Option Planner)
    (other : Option (List AskAnsPair)) (p : Planner)
    (hp : effPlanner a pl = some p) (hd : p.max_depth ≠ 0)
    (hst : (a.reasoner problem a.resources a.knowledge).status = .NEEDING_DECOMPOSITION)
    (sts : List Task) (srs : List AskAnsPair)
    (hloop : solveSubPlans
        (fun ask ctx => a.solve_dynamically ask (some p.one_fewer_level_deep) (some ctx))
        (((p.one_level_deep).plan problem a.resources none)).sub_plans [] = .ok (sts, srs)) :
    a.solve_dynamically problem pl other =
      .ok { ask := problem, resources := a.resources, status := .DONE,
            result := some (((p.one_level_deep).plan problem a.resources none).execute
                              a.reasoner sts other a.knowledge) } := by
  rw [solve_dynamically_decomp a problem pl other p hp hd hst, hloop]

/-- C7, witness: the amended statement instantiated at the probe agent with
the caller-provided context absent; execute receives None and the task comes
back DONE carrying its answer. -/
theorem C7_execute_context_witness :
    agentProbe.solve_dynamically "X" none none =
      .ok { ask := "X", resources := ∅, status := .DONE,
            result := some "OTHER=NONE" } :=
  C7_execute_context_amended agentProbe "X" none none plannerProbe rfl (by decide) (by decide)
    [{ ask := "X1", resources := ∅, status := .DONE, result := some "sub-answer" }]
    [("X1", "sub-answer")] (by decide)

/-- C9: calling solve_dynamically with no planner argument on an agent whose
planner is None raises AttributeError exactly when the Reasoner sets
NEEDING_DECOMPOSITION — line 152 then reads max_depth on None — and for any
other status returns the direct Reasoner result normally. -/
theorem C9_missing_planner_attribute_error (a : Agent) (problem : String)
    (other : Option (List AskAnsPair)) (h : a.planner = none) :
    ((a.reasoner problem a.resources a.knowledge).status = .NEEDING_DECOMPOSITION →
      a.solve_dynamically problem none other = .error .attributeError) ∧
    ((a.reasoner problem a.resources a.knowledge).status ≠ .NEEDING_DECOMPOSITION →
      a.solve_dynamically problem none other = .ok (directTask a problem)) := by
  constructor <;> intro hst
  · rw [Agent.solve_dynamically]
    have hz : effDepth a none = 0 := by simp [effDepth, effPlanner, h]
    rw [hz]
    simp only [solveDynWorker]
    rw [if_pos hst]
    simp [effPlanner, h]
  · rw [Agent.solve_dynamically]
    have hz : effDepth a none = 0 := by simp [effDepth, effPlanner, h]
    rw [hz]
    simp only [solveDynWorker]
    rw [if_neg hst]
    rfl

/-- C9, witness: the plannerless agent errors on the ask X (which its
reasoner wants decomposed) and answers the ask easy normally. -/
theorem C9_missing_planner_witness :
    agentNoPlanner.solve_dynamically "X" none none = .error .attributeError ∧
    agentNoPlanner.solve_dynamically "easy" none none =
      .ok (directTask agentNoPlanner "easy") :=
  ⟨(C9_missing_planner_attribute_error agentNoPlanner "X" none rfl).1 (by decide),
   (C9_missing_planner_attribute_error agentNoPlanner "easy" none rfl).2 (by decide)⟩

/-- C4, counterexample: a plan object that is present (non-None) but
boolean-falsy, together with a present truthy planner and dynamic=true, does
not reach the Not-Implemented arm as the claim states — the guard of agent.py
line 132 tests truthiness, the arm is skipped, and the catch-all of line 137
raises the Invalid-Configuration error instead. -/
theorem C4_counterexample_falsy_plan :
    solveDispatch (some false) (some true) true = .invalidConfigError ∧
    decide (solveDispatch (some false) (some true) true = .notImplementedError) = false := by
  constructor
  · decide
  · decide

/-- C4, amended: solve raises Not-Implemented exactly when the explicit plan
and the agent planner are both boolean-truthy and dynamic is true; reading
the six rows of the dispatch table of section 4.4 with present as truthy, the
dispatch realizes the table exactly, every combination outside the six rows
(None-or-truthy combinations not matching a row, and every combination
involving a falsy non-None object) raising the Invalid-Configuration error,
so no input combination falls through without a defined outcome. -/
theorem C4_dispatch_totality_amended :
    ∀ (plan planner : Option Bool) (dynamic : Bool),
      solveDispatch plan planner dynamic = specDispatchTable plan planner dynamic ∧
      (solveDispatch plan planner dynamic = .notImplementedError ↔
        truthy plan = true ∧ truthy planner = true ∧ dynamic = true) := by decide

/-- C10: the dispatch tests the truthiness of the planner, not its presence:
with no explicit plan and a planner object that is non-None but
boolean-falsy, the guards of agent.py lines 77 and 94 fail, the plan-present
arms cannot match on a None plan, and the catch-all of line 137 raises the
Invalid-Configuration error for either value of dynamic. -/
theorem C10_falsy_planner_invalid_config :
    solveDispatch none (some false) true = .invalidConfigError ∧
    solveDispatch none (some false) false = .invalidConfigError := by
  constructor
  · decide
  · decide

/-- C8: evaluating add_knowledge at its three argument shapes as the code
actually runs. A string is added with no error (second conjunct). A set of
strings is NOT merged: the call fails with TypeError (first conjunct),
because line 54 evaluates isinstance(new_knowledge, set[str]) and isinstance
with a parameterized generic raises TypeError in Python — the merge branch of
line 55 and the ValueError of line 57 are unreachable, contradicting the
declared parameter type str | set[str] and the docstring of the method. Any
other value also fails with the same TypeError (third conjunct). -/
theorem C8_add_knowledge_behaviour :
    Agent.add_knowledge ∅ (.pset {"a"}) = .error .typeError ∧
    Agent.add_knowledge ∅ (.pstr "a") = .ok {"a"} ∧
    Agent.add_knowledge ∅ .pother = .error .typeError := by
  refine ⟨by decide, by decide, by decide⟩

end OpenSSA
